import Mathlib

/-!
# Verification of the ai-quiz-backend core

Shallow embedding of the repository's core components:

* the adaptive-difficulty estimator (`src/utils/adaptiveDifficulty.js`),
* the AI-response question parser and provider fallback chain
  (`generateQuestions` / `parseQuestionsFromText` / `parseQuestionBlock` /
  `generateAISuggestions`),
* quiz creation and submission scoring (`src/routes/auth.js`,
  `src/models/Submission.js`).

JavaScript numbers are modelled as exact rationals (`ℚ`); all arithmetic the
code performs stays far from binary-float rounding boundaries except at exact
halves, where IEEE-754 products of the involved decimals round to the exact
half, so `Math.round` agrees with the exact-rational model used here.
Strings are modelled as `List Char`.
-/

set_option maxRecDepth 100000

namespace QuizBackend

/-- JavaScript `Math.round`: round half toward positive infinity. -/
def jsRound (q : ℚ) : ℤ := ⌊q + 1/2⌋

/-! ## Adaptive difficulty estimator (`src/utils/adaptiveDifficulty.js`) -/

/-- The trend strings produced by `calculatePerformanceMetrics`
(`'improving'`, `'declining'`, `'stable'`). -/
inductive Trend where
  | improving
  | declining
  | stable
  deriving DecidableEq, Repr

/-- The fields of a `Submission` document used by the estimator:
its `score` (a JS number) and its `responses` array (only the length
is read). -/
structure SubmissionRec where
  score : ℚ
  numResponses : ℕ
  deriving DecidableEq, Repr

/-- The metrics object returned by `calculatePerformanceMetrics`. -/
structure PerformanceMetrics where
  overallPercentage : ℚ
  averageRecentPerformage : ℚ
  trend : Trend
  totalAttempts : ℕ
  totalQuestions : ℕ
  totalCorrect : ℚ
  deriving DecidableEq, Repr

/-- `calculatePerformanceMetrics` (adaptiveDifficulty.js lines 52-95):
per-submission percentages, their mean, and the first-half/second-half
trend signal. -/
def calculatePerformanceMetrics (submissions : List SubmissionRec) :
    PerformanceMetrics :=
  let totalQuestions := (submissions.map (·.numResponses)).sum
  let totalCorrect := (submissions.map (·.score)).sum
  let recentPerformance := submissions.map (fun s =>
    if 0 < s.numResponses then s.score / (s.numResponses : ℚ) * 100 else 0)
  let overallPercentage :=
    if 0 < totalQuestions then totalCorrect / (totalQuestions : ℚ) * 100 else 50
  let averageRecentPerformage :=
    if 0 < recentPerformance.length then
      recentPerformance.sum / (recentPerformance.length : ℚ)
    else 50
  let trend :=
    if 3 ≤ recentPerformance.length then
      let half := recentPerformance.length / 2
      let firstHalf := recentPerformance.take half
      let secondHalf := recentPerformance.drop half
      let firstAvg := firstHalf.sum / (firstHalf.length : ℚ)
      let secondAvg := secondHalf.sum / (secondHalf.length : ℚ)
      if firstAvg + 10 < secondAvg then Trend.improving
      else if secondAvg < firstAvg - 10 then Trend.declining
      else Trend.stable
    else Trend.stable
  { overallPercentage := overallPercentage
    averageRecentPerformage := averageRecentPerformage
    trend := trend
    totalAttempts := submissions.length
    totalQuestions := totalQuestions
    totalCorrect := totalCorrect }

/-- Band selection in `generateAdaptiveDistribution`
(adaptiveDifficulty.js lines 109-136): the base percentage triple
(easy, medium, hard) chosen from the performance score, with the
trend-conditional variants inside the ≥80 and <40 bands. -/
def basePercentages (trend : Trend) (performanceScore : ℚ) : ℚ × ℚ × ℚ :=
  if 80 ≤ performanceScore then
    (match trend with | Trend.declining => 30 | _ => 20, 40,
     match trend with | Trend.declining => 30 | _ => 40)
  else if 60 ≤ performanceScore then (30, 50, 20)
  else if 40 ≤ performanceScore then (50, 35, 15)
  else
    (match trend with | Trend.improving => 50 | _ => 60,
     match trend with | Trend.improving => 35 | _ => 30,
     match trend with | Trend.improving => 15 | _ => 10)

/-- Trend adjustment in `generateAdaptiveDistribution`
(adaptiveDifficulty.js lines 139-147): improving moves 5 points from
easy to hard, declining moves 5 points from hard to easy. -/
def applyTrendNudge (trend : Trend) (p : ℚ × ℚ × ℚ) : ℚ × ℚ × ℚ :=
  match trend with
  | Trend.improving => (p.1 - 5, p.2.1, p.2.2 + 5)
  | Trend.declining => (p.1 + 5, p.2.1, p.2.2 - 5)
  | Trend.stable => p

/-- The percentages right before the clamping step
(adaptiveDifficulty.js line 149). -/
def nudgedPercentages (m : PerformanceMetrics) : ℚ × ℚ × ℚ :=
  applyTrendNudge m.trend (basePercentages m.trend m.averageRecentPerformage)

/-- Clamping step (adaptiveDifficulty.js lines 150-152):
easy to [10,70], medium to [20,60], hard to [5,50]. -/
def clampPercentages (p : ℚ × ℚ × ℚ) : ℚ × ℚ × ℚ :=
  (max 10 (min 70 p.1), max 20 (min 60 p.2.1), max 5 (min 50 p.2.2))

/-- Normalization step (adaptiveDifficulty.js lines 155-158): rescale
the clamped percentages against their sum, rounding easy and medium and
deriving hard as `100 - easy - medium`. -/
def normalizedPercentages (m : PerformanceMetrics) : ℤ × ℤ × ℤ :=
  let c := clampPercentages (nudgedPercentages m)
  let total := c.1 + c.2.1 + c.2.2
  let easy := jsRound (c.1 / total * 100)
  let medium := jsRound (c.2.1 / total * 100)
  (easy, medium, 100 - easy - medium)

/-- The distribution value object returned by the estimator. -/
structure Distribution where
  easy : ℤ
  medium : ℤ
  hard : ℤ
  reasoning : String
  deriving DecidableEq, Repr

/-- Count conversion in `generateAdaptiveDistribution`
(adaptiveDifficulty.js lines 161-170): rounded easy and hard counts,
medium takes the rest, then the `Math.max` floors (1 for easy and
medium, 0 for hard). The medium percentage is not used here. -/
def distributionFromPercentages (easyPct hardPct : ℤ) (totalQuestions : ℕ)
    (reasoning : String) : Distribution :=
  let easyCount := jsRound ((easyPct : ℚ) / 100 * totalQuestions)
  let hardCount := jsRound ((hardPct : ℚ) / 100 * totalQuestions)
  let mediumCount := (totalQuestions : ℤ) - easyCount - hardCount
  { easy := max 1 easyCount
    medium := max 1 mediumCount
    hard := max 0 hardCount
    reasoning := reasoning }

/-- Human-readable trend text used in the reasoning string (the numeric
`toFixed(1)` formatting is elided; the string is informational only). -/
def trendText : Trend → String
  | Trend.improving => "improving"
  | Trend.declining => "declining"
  | Trend.stable => "stable"

/-- `generateAdaptiveDistribution` (adaptiveDifficulty.js lines 100-171). -/
def generateAdaptiveDistribution (m : PerformanceMetrics)
    (totalQuestions : ℕ) : Distribution :=
  let p := normalizedPercentages m
  distributionFromPercentages p.1 p.2.2 totalQuestions
    ("Based on recent performance (" ++ trendText m.trend ++ " trend)")

/-- `getBalancedDistribution` (adaptiveDifficulty.js lines 176-187):
`easy = Math.ceil(0.4 * T)`, `hard = Math.floor(0.2 * T)`,
`medium = T - easy - hard`. -/
def getBalancedDistribution (totalQuestions : ℕ) : Distribution :=
  let easy : ℤ := ⌈(totalQuestions : ℚ) * (2/5)⌉
  let hard : ℤ := ⌊(totalQuestions : ℚ) * (1/5)⌋
  let medium : ℤ := (totalQuestions : ℤ) - easy - hard
  { easy := easy
    medium := medium
    hard := hard
    reasoning := "New user - using balanced distribution" }

/-- `calculateAdaptiveDifficulty` (adaptiveDifficulty.js lines 10-47).
The persistence lookup (the `Submission.find` query, already sorted and
limited to 10 by the query itself) is passed in as an `Except`: a
`.error` models a rejected promise, which the surrounding `try/catch`
turns into the balanced fallback; an empty result list also falls back. -/
def calculateAdaptiveDifficulty (lookup : Except String (List SubmissionRec))
    (totalQuestions : ℕ) : Distribution :=
  match lookup with
  | Except.error _ => getBalancedDistribution totalQuestions
  | Except.ok pastSubmissions =>
    if pastSubmissions.isEmpty then getBalancedDistribution totalQuestions
    else
      generateAdaptiveDistribution (calculatePerformanceMetrics pastSubmissions)
        totalQuestions

/-- The performance history used in the C1 counterexample: three
identical 85% submissions (stable trend, ≥80 band). -/
def steadyHighSubs : List SubmissionRec := [⟨85, 100⟩, ⟨85, 100⟩, ⟨85, 100⟩]

/-- The performance history of the spec's worked example: recent
percentages 90, 92, 95, 40, 35 (each over 100 questions). -/
def decliningRunSubs : List SubmissionRec :=
  [⟨90, 100⟩, ⟨92, 100⟩, ⟨95, 100⟩, ⟨40, 100⟩, ⟨35, 100⟩]

/-! ## AI response parser (`parseQuestionsFromText` / `parseQuestionBlock`) -/

/-- ASCII whitespace matched by the regexes' `\s` class and by
`String.prototype.trim` (the Unicode space characters JS also accepts do
not occur in the texts modelled here). -/
def isJsSpace (c : Char) : Bool :=
  c = ' ' || c = '\t' || c = '\n' || c = '\r' || c = '\x0b' || c = '\x0c'

/-- `String.prototype.trim`: drop whitespace from both ends. -/
def trimChars (l : List Char) : List Char :=
  ((l.dropWhile isJsSpace).reverse.dropWhile isJsSpace).reverse

/-- The option-letter class `[A-D]` under the `i` flag. -/
def isOptionLetter (c : Char) : Bool :=
  c = 'A' || c = 'B' || c = 'C' || c = 'D' ||
  c = 'a' || c = 'b' || c = 'c' || c = 'd'

/-- Match the question-marker pattern `Q\d*:\s*` at the head of the text;
`ci` selects the `i` flag (set on the split regex, not on the `replace`
in `parseQuestionBlock`). Returns the text after the match. The greedy
`\d*` and `\s*` need no backtracking: a digit is never `:`, and nothing
follows the trailing `\s*`. -/
def matchQMarker (ci : Bool) (l : List Char) : Option (List Char) :=
  match l with
  | [] => none
  | c :: rest =>
    if c = 'Q' || (ci && c = 'q') then
      match rest.dropWhile Char.isDigit with
      | ':' :: r => some (r.dropWhile isJsSpace)
      | _ => none
    else none

/-- `text.split(/Q\d*:\s*/i)`: scan left to right, cutting a segment at
every marker match. `acc` holds the current segment reversed. The fuel
starts at the text length, which strictly bounds the scan. -/
def splitQMarkersAux : ℕ → List Char → List Char → List (List Char)
  | 0, acc, _ => [acc.reverse]
  | _, acc, [] => [acc.reverse]
  | fuel + 1, acc, c :: cs =>
    match matchQMarker true (c :: cs) with
    | some rest => acc.reverse :: splitQMarkersAux fuel [] rest
    | none => splitQMarkersAux fuel (c :: acc) cs

def splitQMarkers (l : List Char) : List (List Char) :=
  splitQMarkersAux l.length [] l

/-- Match the option pattern `[A-D]\)\s*[^\n\r]*` (flags `gi`) at the
head of the text: returns the matched characters and the rest. Both
starred classes are greedy; `\s*` can cross line breaks, `[^\n\r]*` then
takes the rest of that line. -/
def matchOption (l : List Char) : Option (List Char × List Char) :=
  match l with
  | c :: c2 :: rest =>
    if isOptionLetter c && c2 = ')' then
      let ws := rest.takeWhile isJsSpace
      let afterWs := rest.drop ws.length
      let body := afterWs.takeWhile (fun ch => !(ch == '\n' || ch == '\r'))
      some (c :: ')' :: (ws ++ body), afterWs.drop body.length)
    else none
  | _ => none

/-- Global scan of `block.match(/([A-D]\)\s*[^\n\r]*)/gi)`: all
non-overlapping matches, leftmost first. -/
def scanOptionsAux : ℕ → List Char → List (List Char)
  | 0, _ => []
  | _, [] => []
  | fuel + 1, c :: cs =>
    match matchOption (c :: cs) with
    | some (m, rest) => m :: scanOptionsAux fuel rest
    | none => scanOptionsAux fuel cs

def scanOptions (l : List Char) : List (List Char) :=
  scanOptionsAux l.length l

/-- Case-insensitive match of `keyword` (given in lower case), then
`\s*`, then one `[A-D]` letter (case-insensitive under the `i` flag), at
the head of the text. -/
def matchAnswerAt (keyword : List Char) (l : List Char) : Option Char :=
  if (l.take keyword.length).map Char.toLower = keyword then
    match (l.drop keyword.length).dropWhile isJsSpace with
    | d :: _ => if isOptionLetter d then some d else none
    | [] => none
  else none

/-- `block.match(/Answer:\s*([A-D])/i)`: the captured letter of the
leftmost position where the whole pattern matches. -/
def findAnswerLetterAux (keyword : List Char) : ℕ → List Char → Option Char
  | 0, _ => none
  | _, [] => none
  | fuel + 1, c :: cs =>
    match matchAnswerAt keyword (c :: cs) with
    | some d => some d
    | none => findAnswerLetterAux keyword fuel cs

def findAnswerLetter (keyword : List Char) (l : List Char) : Option Char :=
  findAnswerLetterAux keyword l.length l

/-- The structured question record built by `parseQuestionBlock`. -/
structure ParsedQuestion where
  questionId : String
  question : List Char
  options : List (List Char)
  answer : List Char
  deriving DecidableEq, Repr

/-- The question-text extraction of `parseQuestionBlock` (part_001 lines
508-512): the lazy `^([^A-D]*?)(?=A\))` match — the shortest prefix of
non-`A-D` characters followed by a literal `A)` — which is exactly the
maximal non-`A-D` prefix when the next character starts `A)`; then any
leading `Q\d*:\s*` is stripped (case-sensitively) and the result is
trimmed and must be non-empty.  A `none` models a thrown error. -/
def extractQuestionText (block : List Char) : Option (List Char) :=
  let n := (block.takeWhile
    (fun c => !(c == 'A' || c == 'B' || c == 'C' || c == 'D'))).length
  if (block.drop n).take 2 = ['A', ')'] then
    let questionRaw := block.take n
    let questionText := trimChars
      (match matchQMarker false questionRaw with
       | some r => r
       | none => questionRaw)
    if questionText.isEmpty then none else some questionText
  else none

/-- The answer extraction of `parseQuestionBlock` (part_001 lines
524-526): the `Answer:` capture, else the `Correct:` capture, upper
cased, else the default `'A'`. -/
def extractAnswer (block : List Char) : List Char :=
  match findAnswerLetter ("answer:".toList) block with
  | some d => [d.toUpper]
  | none =>
    match findAnswerLetter ("correct:".toList) block with
    | some d => [d.toUpper]
    | none => ['A']

/-- `parseQuestionBlock` (part_001 lines 506-534). A thrown error is
modelled as `none`: the question text must extract, at least four option
matches are required and the first four are kept trimmed. -/
def parseQuestionBlock (block : List Char) (questionNum : ℕ) :
    Option ParsedQuestion :=
  match extractQuestionText block with
  | none => none
  | some questionText =>
    let optionMatches := scanOptions block
    if 4 ≤ optionMatches.length then
      some { questionId := "q" ++ toString questionNum
             question := questionText
             options := (optionMatches.take 4).map trimChars
             answer := extractAnswer block }
    else none

/-- `parseQuestionsFromText` (part_001 lines 479-503): split on question
markers, keep blocks that are non-empty after trimming, and walk only
the first `min(blocks.length, expectedCount)` blocks, keeping those that
parse. -/
def parseQuestionsFromText (text : List Char) (expectedCount : ℕ) :
    List ParsedQuestion :=
  let questionBlocks :=
    (splitQMarkers text).filter (fun b => !(trimChars b).isEmpty)
  ((questionBlocks.take expectedCount).enum).filterMap
    (fun p => parseQuestionBlock (trimChars p.2) (p.1 + 1))

/-- A five-question well-formed AI response in the format the prompt
requests. -/
def sampleFiveText : List Char :=
  ("Q1: What is two plus two?\nA) three\nB) four\nC) five\nD) six\nAnswer: B\n\nQ2: Which planet is closest to the sun?\nA) Venus\nB) Earth\nC) Mercury\nD) Mars\nAnswer: C\n\nQ3: What gas do plants absorb?\nA) oxygen\nB) hydrogen\nC) nitrogen\nD) carbon dioxide\nAnswer: D\n\nQ4: How many legs has a spider?\nA) eight\nB) six\nC) four\nD) ten\nAnswer: A\n\nQ5: What is the largest ocean?\nA) Atlantic\nB) Pacific\nC) Indian\nD) Arctic\nAnswer: B\n").toList

/-- The same response with the first block missing its fourth option. -/
def sampleBrokenFirstText : List Char :=
  ("Q1: What is two plus two?\nA) three\nB) four\nC) five\nAnswer: B\n\nQ2: Which planet is closest to the sun?\nA) Venus\nB) Earth\nC) Mercury\nD) Mars\nAnswer: C\n\nQ3: What gas do plants absorb?\nA) oxygen\nB) hydrogen\nC) nitrogen\nD) carbon dioxide\nAnswer: D\n\nQ4: How many legs has a spider?\nA) eight\nB) six\nC) four\nD) ten\nAnswer: A\n\nQ5: What is the largest ocean?\nA) Atlantic\nB) Pacific\nC) Indian\nD) Arctic\nAnswer: B\n\nQ6: What color is the sky?\nA) blue\nB) green\nC) red\nD) yellow\nAnswer: A\n").toList

/-- The first question of `sampleFiveText`, as the parser returns it. -/
def sampleQ1 : ParsedQuestion :=
  { questionId := "q1"
    question := ("What is two plus two?").toList
    options := [("A) three").toList, ("B) four").toList,
      ("C) five").toList, ("D) six").toList]
    answer := ['B'] }

/-! ## AI completion gateway (`generateQuestions`, part_001 lines 287-312) -/

/-- The observable outcome of one provider (or HuggingFace model)
attempt: `unavailable` models a missing API key (the function returns
`null` before any request), `failed` models a transport/HTTP/shape error
swallowed by the `try/catch` (also yielding `null`), and `responded`
carries the completion text handed to the parser. -/
inductive ProviderOutcome where
  | unavailable
  | failed
  | responded (text : List Char)
  deriving DecidableEq, Repr

/-- `tryOpenRouterGeneration` / `tryGroqGeneration` (part_001 lines
315-398): `null` on a missing key or any error, otherwise the parsed
questions from the completion text. -/
def tryProviderGeneration (outcome : ProviderOutcome) (totalQuestions : ℕ) :
    Option (List ParsedQuestion) :=
  match outcome with
  | ProviderOutcome.unavailable => none
  | ProviderOutcome.failed => none
  | ProviderOutcome.responded text =>
    some (parseQuestionsFromText text totalQuestions)

/-- The model loop of `tryHuggingFaceGeneration` (part_001 lines
414-444): try each model in order, returning the first non-empty parse;
errors continue to the next model; `null` after the loop. -/
def tryHuggingFaceModels (outcomes : List ProviderOutcome)
    (totalQuestions : ℕ) : Option (List ParsedQuestion) :=
  match outcomes with
  | [] => none
  | o :: rest =>
    match o with
    | ProviderOutcome.responded text =>
      let questions := parseQuestionsFromText text totalQuestions
      if questions.isEmpty then tryHuggingFaceModels rest totalQuestions
      else some questions
    | _ => tryHuggingFaceModels rest totalQuestions

/-- `tryHuggingFaceGeneration` (part_001 lines 401-445): `null` when the
key is absent, otherwise the model loop. -/
def tryHuggingFaceGeneration (keyPresent : Bool)
    (modelOutcomes : List ProviderOutcome) (totalQuestions : ℕ) :
    Option (List ParsedQuestion) :=
  if keyPresent then tryHuggingFaceModels modelOutcomes totalQuestions
  else none

/-- One rung of the fallback ladder in `generateQuestions`: a provider
result is used only if it is non-null and non-empty
(`questions && questions.length > 0`). -/
def useOrFallthrough (result : Option (List ParsedQuestion))
    (next : Except String (List ParsedQuestion)) :
    Except String (List ParsedQuestion) :=
  match result with
  | some questions => if questions.isEmpty then next else Except.ok questions
  | none => next

/-- The error message thrown when every provider is exhausted
(part_001 line 311). -/
def allProvidersExhaustedMsg : String :=
  "All AI services failed. Please check your API keys or try again later."

/-- `generateQuestions` (part_001 lines 287-312): OpenRouter, then Groq,
then HuggingFace, then the terminal `AllProvidersExhausted` error. -/
def generateQuestions (openRouter groq : ProviderOutcome)
    (hfKeyPresent : Bool) (hfOutcomes : List ProviderOutcome)
    (totalQuestions : ℕ) : Except String (List ParsedQuestion) :=
  useOrFallthrough (tryProviderGeneration openRouter totalQuestions)
    (useOrFallthrough (tryProviderGeneration groq totalQuestions)
      (useOrFallthrough
        (tryHuggingFaceGeneration hfKeyPresent hfOutcomes totalQuestions)
        (Except.error allProvidersExhaustedMsg)))

/-- Cleaning of one suggestion line (part_001 lines 624-627): strip a
leading `\d+[.)]\s*` enumeration marker if present. -/
def stripEnumMarker (l : List Char) : List Char :=
  let digits := l.takeWhile Char.isDigit
  if digits.isEmpty then l
  else
    match l.drop digits.length with
    | c :: rest =>
      if c = '.' || c = ')' then rest.dropWhile isJsSpace else l
    | [] => l

/-- Strip a leading `[-•*]\s*` bullet marker if present. -/
def stripBulletMarker (l : List Char) : List Char :=
  match l with
  | c :: rest =>
    if c = '-' || c = '•' || c = '*' then rest.dropWhile isJsSpace else l
  | [] => l

/-- The suggestion-line extraction of `generateAISuggestions` (part_001
lines 618-634): split on newlines, drop blank lines, clean each line,
keep the substantial ones (length > 50), stop at three. -/
def parseSuggestionLines (text : List Char) : List (List Char) :=
  let lines := (text.splitOn '\n').filter (fun line => !(trimChars line).isEmpty)
  ((lines.map (fun line => trimChars (stripBulletMarker (stripEnumMarker line)))).filter
    (fun cleaned => 50 < cleaned.length)).take 3

/-- `generateAISuggestions` (part_001 lines 540-651): walk the free-model
list; a model's response is used only if exactly three suggestions are
extracted from it; every other outcome falls through; exhaustion throws. -/
def generateAISuggestions (modelOutcomes : List ProviderOutcome) :
    Except String (List (List Char)) :=
  match modelOutcomes with
  | [] => Except.error ("All AI models failed to generate suggestions")
  | o :: rest =>
    match o with
    | ProviderOutcome.responded text =>
      let suggestions := parseSuggestionLines (trimChars text)
      if suggestions.length = 3 then Except.ok suggestions
      else generateAISuggestions rest
    | _ => generateAISuggestions rest

/-! ## Quiz creation and submission scoring (`src/routes/auth.js`,
`src/models/Submission.js`, part_000) -/

/-- A question as stored on a `Quiz` document (`QuestionSchema`,
part_000 lines 3-9). -/
structure QuizQuestion where
  questionId : String
  q : List Char
  options : List (List Char)
  correctAnswer : List Char
  difficulty : String
  deriving DecidableEq, Repr

/-- Question transformation in `POST /create-quiz` (auth.js lines
389-395): the parsed `answer` letter becomes `correctAnswer`; the parsed
`questionId` is kept when truthy (non-empty). -/
def transformQuestion (validDifficulty : String) (index : ℕ)
    (pq : ParsedQuestion) : QuizQuestion :=
  { questionId :=
      if pq.questionId = "" then "q" ++ toString (index + 1)
      else pq.questionId
    q := pq.question
    options := pq.options
    correctAnswer := pq.answer
    difficulty := validDifficulty }

/-- One evaluated response (`ResponseSchema`, Submission.js lines 3-8). -/
structure ResponseRec where
  questionId : String
  userResponse : List Char
  correctAnswer : List Char
  isCorrect : Bool
  deriving DecidableEq, Repr

/-- Per-response evaluation in `POST /:quizId/submit-ejs` (auth.js lines
481-490): look the question up by id; `isCorrect` is the strict string
equality `question.correctAnswer === response.userResponse`; a missing
question gives `'Unknown'` and a falsy `isCorrect`. -/
def evalResponse (questions : List QuizQuestion) (questionId : String)
    (answer : List Char) : ResponseRec :=
  match questions.find? (fun q => q.questionId == questionId) with
  | some q =>
    { questionId := questionId
      userResponse := answer
      correctAnswer := q.correctAnswer
      isCorrect := q.correctAnswer == answer }
  | none =>
    { questionId := questionId
      userResponse := answer
      correctAnswer := ("Unknown").toList
      isCorrect := false }

/-- The persisted `Submission` fields relevant here
(`SubmissionSchema`, Submission.js lines 10-18). -/
structure SubmissionDoc where
  quizId : String
  username : String
  responses : List ResponseRec
  score : ℕ
  suggestions : List (List Char)
  deriving DecidableEq, Repr

/-- The submission built and saved by `POST /:quizId/submit-ejs`
(auth.js lines 481-521): `responses` stores the evaluation and `score`
is the length of its `isCorrect` filter. -/
def submitEjsSubmission (quizId username : String)
    (questions : List QuizQuestion) (responses : List (String × List Char))
    (suggestions : List (List Char)) : SubmissionDoc :=
  let evaluation := responses.map (fun p => evalResponse questions p.1 p.2)
  { quizId := quizId
    username := username
    responses := evaluation
    score := (evaluation.filter (fun r => r.isCorrect)).length
    suggestions := suggestions }

/-- The fresh-attempt submission created by `POST /:quizId/retry`
(auth.js lines 259-266): empty responses, score 0. -/
def retrySubmission (quizId : String) : SubmissionDoc :=
  { quizId := quizId
    username := "guest"
    responses := []
    score := 0
    suggestions := [] }

/-- The functions `src/services/aiService.js` exports. -/
def aiServiceExports : List String :=
  ["generateQuizQuestions", "getImprovementTips"]

/-- Field names the legacy `POST /:quizId/submit` route (part_000 lines
53-59) passes to `Submission.create`. -/
def legacySubmitProvidedFields : List String :=
  ["user", "quizId", "answers", "score", "feedback"]

/-- Field names `SubmissionSchema` marks `required`
(Submission.js lines 10-15). -/
def submissionRequiredFields : List String :=
  ["quizId", "username", "userId", "score"]

/-- Whether the legacy `POST /:quizId/submit` route (part_000 lines
39-63) can ever persist a submission: evaluating an answer calls
`aiService.evaluateAnswer`, which the service does not export (a
TypeError), and even the no-evaluation path fails schema validation
because the route provides none of the required `username`/`userId`
fields. -/
def legacySubmitCreates : Bool :=
  aiServiceExports.contains ("evaluateAnswer") &&
  submissionRequiredFields.all (fun f => legacySubmitProvidedFields.contains f)

/-- A provider outcome that contributes no questions: it is unavailable,
failed, or its completion text parses to zero questions. -/
def yieldsNoQuestions (totalQuestions : ℕ) (o : ProviderOutcome) : Prop :=
  ∀ text, o = ProviderOutcome.responded text →
    parseQuestionsFromText text totalQuestions = []

/-! ## General lemmas -/

/-- The balanced distribution's three counts always sum to the requested
total: medium is defined as the remainder. -/
theorem getBalancedDistribution_sum (T : ℕ) :
    (getBalancedDistribution T).easy + (getBalancedDistribution T).medium +
      (getBalancedDistribution T).hard = (T : ℤ) := by
  simp only [getBalancedDistribution]
  ring

/-- Before the `Math.max` floors the three counts sum to the total, so
the floored counts sum to at least the total. -/
theorem distributionFromPercentages_le_sum (ep hp : ℤ) (T : ℕ) (r : String) :
    (T : ℤ) ≤ (distributionFromPercentages ep hp T r).easy +
      (distributionFromPercentages ep hp T r).medium +
      (distributionFromPercentages ep hp T r).hard := by
  simp only [distributionFromPercentages]
  have h1 := le_max_right (1 : ℤ) (jsRound ((ep : ℚ) / 100 * T))
  have h2 := le_max_right (1 : ℤ)
    ((T : ℤ) - jsRound ((ep : ℚ) / 100 * T) - jsRound ((hp : ℚ) / 100 * T))
  have h3 := le_max_right (0 : ℤ) (jsRound ((hp : ℚ) / 100 * T))
  linarith

/-! ## Claim theorems: adaptive difficulty estimator -/

/-- C1 counterexample: for requested total 1 and a steady 85% history
the estimator returns easy 1, medium 1, hard 0, whose sum is 2, not 1;
and in the no-history case with total 1 the medium count is 0, so medium
is not floored at 1 there. -/
theorem estimator_sum_exceeds_total_at_one :
    (calculateAdaptiveDifficulty (Except.ok steadyHighSubs) 1).easy = 1 ∧
    (calculateAdaptiveDifficulty (Except.ok steadyHighSubs) 1).medium = 1 ∧
    (calculateAdaptiveDifficulty (Except.ok steadyHighSubs) 1).hard = 0 ∧
    (1 : ℤ) + 1 + 0 ≠ 1 ∧
    (calculateAdaptiveDifficulty (Except.ok []) 1).medium = 0 := by
  have hceil : (⌈(2 : ℚ) / 5⌉ : ℤ) = 1 := by
    rw [Int.ceil_eq_iff]
    norm_num
  refine ⟨?_, ?_, ?_, by norm_num, ?_⟩ <;>
    norm_num [calculateAdaptiveDifficulty, steadyHighSubs,
      generateAdaptiveDistribution, normalizedPercentages, nudgedPercentages,
      basePercentages, applyTrendNudge, clampPercentages,
      distributionFromPercentages, calculatePerformanceMetrics,
      getBalancedDistribution, jsRound, hceil]

/-- C1 (amended): the estimator's counts sum to at least the requested
total; in the balanced (no-history or fallback) path the sum is exactly
the total, while the adaptive path's `Math.max` floors can push the sum
above it. -/
theorem estimator_sum_bounds (lookup : Except String (List SubmissionRec))
    (T : ℕ) :
    (T : ℤ) ≤ (calculateAdaptiveDifficulty lookup T).easy +
        (calculateAdaptiveDifficulty lookup T).medium +
        (calculateAdaptiveDifficulty lookup T).hard ∧
    (getBalancedDistribution T).easy + (getBalancedDistribution T).medium +
        (getBalancedDistribution T).hard = (T : ℤ) := by
  refine ⟨?_, getBalancedDistribution_sum T⟩
  match lookup with
  | Except.error e =>
    exact le_of_eq (getBalancedDistribution_sum T).symm
  | Except.ok subs =>
    rw [calculateAdaptiveDifficulty]
    by_cases h : subs.isEmpty
    · rw [if_pos h]
      exact le_of_eq (getBalancedDistribution_sum T).symm
    · rw [if_neg h]
      exact distributionFromPercentages_le_sum _ _ _ _

/-- C3 (confirmed): the normalized percentages satisfy
`easy = round(clampedEasy/clampedTotal*100)`,
`hard = round(clampedHard/clampedTotal*100)` and
`medium = 100 - easy - hard`: every clamped triple the code can produce
already sums to 100, so the code's derivation of hard as the remainder
coincides with deriving medium as the remainder. -/
theorem renormalize_medium_derived (m : PerformanceMetrics) :
    normalizedPercentages m =
      (jsRound ((clampPercentages (nudgedPercentages m)).1 /
          ((clampPercentages (nudgedPercentages m)).1 +
            (clampPercentages (nudgedPercentages m)).2.1 +
            (clampPercentages (nudgedPercentages m)).2.2) * 100),
        100 -
          jsRound ((clampPercentages (nudgedPercentages m)).1 /
            ((clampPercentages (nudgedPercentages m)).1 +
              (clampPercentages (nudgedPercentages m)).2.1 +
              (clampPercentages (nudgedPercentages m)).2.2) * 100) -
          jsRound ((clampPercentages (nudgedPercentages m)).2.2 /
            ((clampPercentages (nudgedPercentages m)).1 +
              (clampPercentages (nudgedPercentages m)).2.1 +
              (clampPercentages (nudgedPercentages m)).2.2) * 100),
        jsRound ((clampPercentages (nudgedPercentages m)).2.2 /
          ((clampPercentages (nudgedPercentages m)).1 +
            (clampPercentages (nudgedPercentages m)).2.1 +
            (clampPercentages (nudgedPercentages m)).2.2) * 100)) := by
  obtain ⟨op, ps, trend, ta, tq, tc⟩ := m
  cases trend <;>
    · simp only [normalizedPercentages, nudgedPercentages, applyTrendNudge,
        basePercentages, clampPercentages]
      split_ifs <;> norm_num [jsRound]

/-- C5 counterexample: for the [90,92,95,40,35] history the pre-clamp
percentages are not the claimed {35,45,15}. -/
theorem decliningRun_not_claimed_triple :
    nudgedPercentages (calculatePerformanceMetrics decliningRunSubs) ≠
      ((35 : ℚ), (45 : ℚ), (15 : ℚ)) := by
  norm_num [calculatePerformanceMetrics, decliningRunSubs, nudgedPercentages,
    basePercentages, applyTrendNudge]

/-- C5 (amended): the [90,92,95,40,35] history yields a declining trend
and aggregate mean 70.4, selecting the 60-79 band base triple
{30,50,20}; the declining nudge moves 5 from hard to easy, leaving
medium at 50, so the pre-clamp percentages are {35,50,15}. -/
theorem decliningRun_distribution :
    (calculatePerformanceMetrics decliningRunSubs).trend = Trend.declining ∧
    (calculatePerformanceMetrics decliningRunSubs).averageRecentPerformage =
      352 / 5 ∧
    basePercentages Trend.declining (352 / 5) = (30, 50, 20) ∧
    nudgedPercentages (calculatePerformanceMetrics decliningRunSubs) =
      (35, 50, 15) := by
  refine ⟨?_, ?_, ?_, ?_⟩ <;>
    norm_num [calculatePerformanceMetrics, decliningRunSubs,
      nudgedPercentages, basePercentages, applyTrendNudge]

/-- C6 counterexample: in the <40 band with an improving trend the code
uses the triple {50,35,15}, not the claimed {50,30,20} (it takes 10 off
easy but gives 5 to medium and 5 to hard). -/
theorem lowBand_improving_triple :
    basePercentages Trend.improving 30 = (50, 35, 15) ∧
    basePercentages Trend.improving 30 ≠ ((50 : ℚ), (30 : ℚ), (20 : ℚ)) := by
  constructor <;> norm_num [basePercentages]

/-- C6 (amended): in the band-selection step, the ≥80 band with a
declining trend uses {30,40,30} (10 points moved from hard to easy off
the base {20,40,40}), and the <40 band with an improving trend uses
{50,35,15} (10 points off easy, split 5 to medium and 5 to hard off the
base {60,30,10}), both before the separate ±5 trend nudge. -/
theorem band_trend_shifts (ps : ℚ) :
    (80 ≤ ps → basePercentages Trend.declining ps = (30, 40, 30)) ∧
    (ps < 40 → basePercentages Trend.improving ps = (50, 35, 15)) := by
  refine ⟨fun h => ?_, fun h => ?_⟩
  · simp only [basePercentages, if_pos h]
  · have h1 : ¬(80 : ℚ) ≤ ps := by linarith
    have h2 : ¬(60 : ℚ) ≤ ps := by linarith
    have h3 : ¬(40 : ℚ) ≤ ps := by linarith
    simp only [basePercentages, if_neg h1, if_neg h2, if_neg h3]

/-- Witness for `band_trend_shifts` at the scores 85 and 30. -/
theorem band_trend_shifts_check :
    basePercentages Trend.declining 85 = (30, 40, 30) ∧
    basePercentages Trend.improving 30 = (50, 35, 15) :=
  ⟨(band_trend_shifts 85).1 (by norm_num), (band_trend_shifts 30).2 (by norm_num)⟩

/-- C7 (confirmed): with no submission history the estimator returns the
balanced distribution; at total 10 that is easy 4, medium 4, hard 2, and
medium always absorbs the remainder. -/
theorem newUser_balanced_split :
    (∀ T : ℕ, calculateAdaptiveDifficulty (Except.ok []) T =
      getBalancedDistribution T) ∧
    (getBalancedDistribution 10).easy = 4 ∧
    (getBalancedDistribution 10).medium = 4 ∧
    (getBalancedDistribution 10).hard = 2 ∧
    (∀ T : ℕ, (getBalancedDistribution T).medium =
      (T : ℤ) - (getBalancedDistribution T).easy -
        (getBalancedDistribution T).hard) := by
  refine ⟨fun T => rfl, ?_, ?_, ?_, fun T => rfl⟩ <;>
    norm_num [getBalancedDistribution]

/-- C9 (confirmed): a failed submission-history lookup never propagates:
the `try/catch` substitutes the balanced distribution, so the operation
still returns a distribution for every input. -/
theorem lookupFailure_balanced_fallback (e : String) (T : ℕ) :
    calculateAdaptiveDifficulty (Except.error e) T =
      getBalancedDistribution T := rfl

/-! ## Claim theorems: submission scoring invariant -/

/-- C8 (confirmed): every submission the live routes persist has its
score equal to the number of its responses with `isCorrect` true: the
submit route computes the score as that very filter length over the
evaluation it stores, the retry route stores empty responses with score
0, and the dead legacy route can never persist a document at all. -/
theorem submission_score_counts_correct :
    (∀ (quizId username : String) (questions : List QuizQuestion)
        (responses : List (String × List Char))
        (suggestions : List (List Char)),
      (submitEjsSubmission quizId username questions responses
          suggestions).score =
        ((submitEjsSubmission quizId username questions responses
            suggestions).responses.filter (fun r => r.isCorrect)).length) ∧
    (∀ quizId : String, (retrySubmission quizId).score =
      ((retrySubmission quizId).responses.filter
        (fun r => r.isCorrect)).length) ∧
    legacySubmitCreates = false :=
  ⟨fun _ _ _ _ _ => rfl, fun _ => rfl, rfl⟩

/-! ## Claim theorems: gateway exhaustion -/

/-- A rung of the ladder whose provider contributes nothing falls
through. -/
theorem useOrFallthrough_of_no {total : ℕ} {o : ProviderOutcome}
    {next : Except String (List ParsedQuestion)}
    (h : yieldsNoQuestions total o) :
    useOrFallthrough (tryProviderGeneration o total) next = next := by
  cases o with
  | unavailable => rfl
  | failed => rfl
  | responded text =>
    have hp := h text rfl
    simp [tryProviderGeneration, useOrFallthrough, hp]

/-- A HuggingFace model loop over contributing-nothing outcomes yields
`null`. -/
theorem tryHuggingFaceModels_none {total : ℕ} :
    ∀ {hfs : List ProviderOutcome},
    (∀ o ∈ hfs, yieldsNoQuestions total o) →
    tryHuggingFaceModels hfs total = none := by
  intro hfs
  induction hfs with
  | nil => intro _; rfl
  | cons o rest ih =>
    intro h
    have hrest := ih (fun o2 ho2 => h o2 (List.mem_cons_of_mem _ ho2))
    cases o with
    | unavailable => simpa [tryHuggingFaceModels] using hrest
    | failed => simpa [tryHuggingFaceModels] using hrest
    | responded text =>
      have hp := h _ (List.mem_cons_self _ _) text rfl
      simp [tryHuggingFaceModels, hp, hrest]

/-- A successful rung is either this provider's non-empty result or the
fallthrough's. -/
theorem useOrFallthrough_ok {r : Option (List ParsedQuestion)}
    {next : Except String (List ParsedQuestion)} {qs : List ParsedQuestion}
    (h : useOrFallthrough r next = Except.ok qs) :
    (r = some qs ∧ qs ≠ []) ∨ next = Except.ok qs := by
  cases r with
  | none => exact Or.inr h
  | some questions =>
    by_cases he : questions.isEmpty
    · right
      simpa [useOrFallthrough, he] using h
    · left
      simp only [useOrFallthrough, he, Bool.false_eq_true, if_false,
        Except.ok.injEq] at h
      subst h
      exact ⟨rfl, by simpa [List.isEmpty_iff] using he⟩

/-- A provider result is always the parse of that provider's text. -/
theorem tryProviderGeneration_eq_some {o : ProviderOutcome} {total : ℕ}
    {qs : List ParsedQuestion} (h : tryProviderGeneration o total = some qs) :
    ∃ text, o = ProviderOutcome.responded text ∧
      qs = parseQuestionsFromText text total := by
  cases o with
  | unavailable => exact absurd h (by simp [tryProviderGeneration])
  | failed => exact absurd h (by simp [tryProviderGeneration])
  | responded text =>
    refine ⟨text, rfl, ?_⟩
    simpa [tryProviderGeneration] using h.symm

/-- A HuggingFace model-loop result is a non-empty parse of one of the
model responses. -/
theorem tryHuggingFaceModels_eq_some {total : ℕ} :
    ∀ {hfs : List ProviderOutcome} {qs : List ParsedQuestion},
    tryHuggingFaceModels hfs total = some qs →
    qs ≠ [] ∧ ∃ text, ProviderOutcome.responded text ∈ hfs ∧
      qs = parseQuestionsFromText text total := by
  intro hfs
  induction hfs with
  | nil => intro qs h; exact absurd h (by simp [tryHuggingFaceModels])
  | cons o rest ih =>
    intro qs h
    cases o with
    | unavailable =>
      obtain ⟨hne, t, ht, hq⟩ := ih (by simpa [tryHuggingFaceModels] using h)
      exact ⟨hne, t, List.mem_cons_of_mem _ ht, hq⟩
    | failed =>
      obtain ⟨hne, t, ht, hq⟩ := ih (by simpa [tryHuggingFaceModels] using h)
      exact ⟨hne, t, List.mem_cons_of_mem _ ht, hq⟩
    | responded text =>
      simp only [tryHuggingFaceModels] at h
      by_cases he : (parseQuestionsFromText text total).isEmpty
      · rw [if_pos he] at h
        obtain ⟨hne, t, ht, hq⟩ := ih h
        exact ⟨hne, t, List.mem_cons_of_mem _ ht, hq⟩
      · rw [if_neg he] at h
        injection h with h
        subst h
        exact ⟨by simpa [List.isEmpty_iff] using he, text,
          List.mem_cons_self _ _, rfl⟩

/-- Suggestion-side exhaustion: if no model yields exactly three
substantial lines, the loop throws. -/
theorem generateAISuggestions_exhausted :
    ∀ {outcomes : List ProviderOutcome},
    (∀ o ∈ outcomes, ∀ text, o = ProviderOutcome.responded text →
      (parseSuggestionLines (trimChars text)).length ≠ 3) →
    generateAISuggestions outcomes =
      Except.error ("All AI models failed to generate suggestions") := by
  intro outcomes
  induction outcomes with
  | nil => intro _; rfl
  | cons o rest ih =>
    intro h
    have hrest := ih (fun o2 ho2 => h o2 (List.mem_cons_of_mem _ ho2))
    cases o with
    | unavailable => simpa [generateAISuggestions] using hrest
    | failed => simpa [generateAISuggestions] using hrest
    | responded text =>
      have hp := h _ (List.mem_cons_self _ _) text rfl
      simp [generateAISuggestions, hp, hrest]

/-- C4 (confirmed): when every configured provider fails, is unavailable
(skipped for a missing credential) or parses to nothing, the gateway
terminates with the `AllProvidersExhausted` error; and any successful
result is a non-empty parse of one provider's actual completion text —
never partial or fabricated content. The suggestion gateway behaves the
same way. -/
theorem gateway_exhaustion (total : ℕ) (o1 o2 : ProviderOutcome)
    (hfKey : Bool) (hfs : List ProviderOutcome) :
    (yieldsNoQuestions total o1 → yieldsNoQuestions total o2 →
      (∀ o ∈ hfs, yieldsNoQuestions total o) →
      generateQuestions o1 o2 hfKey hfs total =
        Except.error allProvidersExhaustedMsg) ∧
    (∀ qs, generateQuestions o1 o2 hfKey hfs total = Except.ok qs →
      qs ≠ [] ∧ ∃ text,
        (o1 = ProviderOutcome.responded text ∨
          o2 = ProviderOutcome.responded text ∨
          ProviderOutcome.responded text ∈ hfs) ∧
        qs = parseQuestionsFromText text total) ∧
    (∀ outcomes : List ProviderOutcome,
      (∀ o ∈ outcomes, ∀ text, o = ProviderOutcome.responded text →
        (parseSuggestionLines (trimChars text)).length ≠ 3) →
      generateAISuggestions outcomes =
        Except.error ("All AI models failed to generate suggestions")) := by
  refine ⟨?_, ?_, fun outcomes h => generateAISuggestions_exhausted h⟩
  · intro h1 h2 h3
    rw [generateQuestions, useOrFallthrough_of_no h1, useOrFallthrough_of_no h2]
    rw [tryHuggingFaceGeneration]
    by_cases hk : hfKey
    · rw [if_pos hk, tryHuggingFaceModels_none h3]
      rfl
    · rw [if_neg hk]
      rfl
  · intro qs h
    rw [generateQuestions] at h
    rcases useOrFallthrough_ok h with ⟨hp, hne⟩ | h
    · obtain ⟨t, rfl, hq⟩ := tryProviderGeneration_eq_some hp
      exact ⟨hne, t, Or.inl rfl, hq⟩
    rcases useOrFallthrough_ok h with ⟨hp, hne⟩ | h
    · obtain ⟨t, rfl, hq⟩ := tryProviderGeneration_eq_some hp
      exact ⟨hne, t, Or.inr (Or.inl rfl), hq⟩
    rcases useOrFallthrough_ok h with ⟨hp, hne⟩ | h
    · rw [tryHuggingFaceGeneration] at hp
      by_cases hk : hfKey
      · rw [if_pos hk] at hp
        obtain ⟨hne2, t, ht, hq⟩ := tryHuggingFaceModels_eq_some hp
        exact ⟨hne, t, Or.inr (Or.inr ht), hq⟩
      · rw [if_neg hk] at hp
        exact absurd hp (by simp)
    · exact absurd h (by simp)

/-- Witness for `gateway_exhaustion`: with no credentials and a failed
provider nothing is produced, and a single failed suggestion model
exhausts the suggestion loop. -/
theorem gateway_exhaustion_check :
    generateQuestions ProviderOutcome.unavailable ProviderOutcome.failed
        false [] 3 = Except.error allProvidersExhaustedMsg ∧
    generateAISuggestions [ProviderOutcome.failed] =
      Except.error ("All AI models failed to generate suggestions") :=
  ⟨(gateway_exhaustion 3 ProviderOutcome.unavailable ProviderOutcome.failed
        false []).1
      (fun _ ht => ProviderOutcome.noConfusion ht)
      (fun _ ht => ProviderOutcome.noConfusion ht)
      (fun o ho => absurd ho (List.not_mem_nil o)),
   (gateway_exhaustion 3 ProviderOutcome.unavailable ProviderOutcome.failed
        false []).2.2 [ProviderOutcome.failed]
      (fun o ho _ ht => by
        rw [List.mem_singleton] at ho
        subst ho
        exact ProviderOutcome.noConfusion ht)⟩

/-! ## Parser structure lemmas -/

/-- An option letter is one of the eight `[A-D]`/`[a-d]` characters. -/
theorem isOptionLetter_cases {c : Char} (h : isOptionLetter c = true) :
    c = 'A' ∨ c = 'B' ∨ c = 'C' ∨ c = 'D' ∨
    c = 'a' ∨ c = 'b' ∨ c = 'c' ∨ c = 'd' := by
  simp only [isOptionLetter, Bool.or_eq_true, decide_eq_true_eq] at h
  tauto

/-- An option letter is not whitespace. -/
theorem isOptionLetter_not_space {c : Char} (h : isOptionLetter c = true) :
    isJsSpace c = false := by
  rcases isOptionLetter_cases h with rfl|rfl|rfl|rfl|rfl|rfl|rfl|rfl <;> decide

/-- Upper-casing an option letter gives a bare `A`-`D`. -/
theorem isOptionLetter_toUpper {c : Char} (h : isOptionLetter c = true) :
    c.toUpper = 'A' ∨ c.toUpper = 'B' ∨ c.toUpper = 'C' ∨ c.toUpper = 'D' := by
  rcases isOptionLetter_cases h with rfl|rfl|rfl|rfl|rfl|rfl|rfl|rfl <;> decide

/-- Every option-pattern match starts with its letter and `)`. -/
theorem matchOption_shape {l m rest : List Char}
    (h : matchOption l = some (m, rest)) :
    ∃ c t, m = c :: ')' :: t ∧ isOptionLetter c = true := by
  match l with
  | [] => exact absurd h (by simp [matchOption])
  | [c] => exact absurd h (by simp [matchOption])
  | c :: c2 :: r =>
    simp only [matchOption] at h
    by_cases hg : isOptionLetter c && c2 = ')'
    · rw [if_pos hg] at h
      injection h with h
      injection h with h1 h2
      exact ⟨c, _, h1.symm, (Bool.and_eq_true_iff.mp hg).1⟩
    · rw [if_neg hg] at h
      exact absurd h (by simp)

/-- Every match the global option scan finds starts with its letter and
`)`. -/
theorem scanOptionsAux_shape : ∀ (fuel : ℕ) (l m : List Char),
    m ∈ scanOptionsAux fuel l →
    ∃ c t, m = c :: ')' :: t ∧ isOptionLetter c = true := by
  intro fuel
  induction fuel with
  | zero => intro l m h; simp [scanOptionsAux] at h
  | succ n ih =>
    intro l m h
    match l with
    | [] => simp [scanOptionsAux] at h
    | c :: cs =>
      simp only [scanOptionsAux] at h
      rcases hm : matchOption (c :: cs) with _ | ⟨mt, rest⟩
      · rw [hm] at h
        exact ih cs m h
      · rw [hm] at h
        rcases List.mem_cons.mp h with rfl | h
        · exact matchOption_shape hm
        · exact ih rest m h

/-- Dropping trailing characters cannot reach past two protected
leading characters. -/
theorem dropWhile_append_pair {p : Char → Bool} (c d : Char)
    (hd : p d = false) :
    ∀ s : List Char, ∃ t2,
      (List.dropWhile p (s ++ [d, c])).reverse = c :: d :: t2 := by
  intro s
  induction s with
  | nil =>
    refine ⟨[], ?_⟩
    simp [List.dropWhile_cons, hd]
  | cons a s2 ih =>
    by_cases ha : p a
    · simpa [List.dropWhile_cons, ha] using ih
    · refine ⟨s2.reverse ++ [a], ?_⟩
      simp [List.dropWhile_cons, ha]

/-- Trimming an option match keeps its letter-and-`)` marker prefix. -/
theorem trimChars_keeps_marker {c : Char} (t : List Char)
    (hc : isJsSpace c = false) :
    ∃ t2, trimChars (c :: ')' :: t) = c :: ')' :: t2 := by
  have hrp : isJsSpace ')' = false := by decide
  unfold trimChars
  rw [List.dropWhile_cons, hc]
  simp only [Bool.false_eq_true, if_false]
  have hrev : (c :: ')' :: t).reverse = t.reverse ++ [')', c] := by simp
  rw [hrev]
  exact dropWhile_append_pair c ')' hrp t.reverse

/-- A keyword match captures an option letter. -/
theorem matchAnswerAt_letter {kw l : List Char} {d : Char}
    (h : matchAnswerAt kw l = some d) : isOptionLetter d = true := by
  unfold matchAnswerAt at h
  by_cases h1 : (l.take kw.length).map Char.toLower = kw
  · rw [if_pos h1] at h
    rcases hm : (l.drop kw.length).dropWhile isJsSpace with _ | ⟨d0, rest⟩ <;>
      rw [hm] at h
    · exact absurd h (by simp)
    · dsimp only at h
      by_cases h2 : isOptionLetter d0 = true
      · rw [if_pos h2] at h
        injection h with h
        subst h
        exact h2
      · rw [if_neg h2] at h
        exact absurd h (by simp)
  · rw [if_neg h1] at h
    exact absurd h (by simp)

/-- The answer search only ever captures an option letter. -/
theorem findAnswerLetterAux_letter {kw : List Char} :
    ∀ (fuel : ℕ) (l : List Char) (d : Char),
    findAnswerLetterAux kw fuel l = some d → isOptionLetter d = true := by
  intro fuel
  induction fuel with
  | zero => intro l d h; simp [findAnswerLetterAux] at h
  | succ n ih =>
    intro l d h
    match l with
    | [] => simp [findAnswerLetterAux] at h
    | c :: cs =>
      simp only [findAnswerLetterAux] at h
      rcases hm : matchAnswerAt kw (c :: cs) with _ | d0
      · rw [hm] at h
        exact ih cs d h
      · rw [hm] at h
        injection h with h
        subst h
        exact matchAnswerAt_letter hm

/-- The extracted answer is a single bare letter `A`, `B`, `C` or `D`. -/
theorem extractAnswer_shape (block : List Char) :
    extractAnswer block = ['A'] ∨ extractAnswer block = ['B'] ∨
    extractAnswer block = ['C'] ∨ extractAnswer block = ['D'] := by
  unfold extractAnswer
  rcases h1 : findAnswerLetter ("answer:".toList) block with _ | d
  · rcases h2 : findAnswerLetter ("correct:".toList) block with _ | d
    · exact Or.inl rfl
    · dsimp only
      rw [findAnswerLetter] at h2
      rcases isOptionLetter_toUpper (findAnswerLetterAux_letter _ _ _ h2) with
        h|h|h|h <;> rw [h] <;> tauto
  · dsimp only
    rw [findAnswerLetter] at h1
    rcases isOptionLetter_toUpper (findAnswerLetterAux_letter _ _ _ h1) with
      h|h|h|h <;> rw [h] <;> tauto

/-- A guarded `some` of a non-empty-checked list is non-empty. -/
theorem guard_some_ne_nil {c : Prop} [Decidable c] {x qt : List Char}
    (h : (if c then (if x.isEmpty then none else some x) else none) =
      some qt) : qt ≠ [] := by
  by_cases h1 : c
  · rw [if_pos h1] at h
    by_cases h2 : x.isEmpty
    · rw [if_pos h2] at h
      exact absurd h (by simp)
    · rw [if_neg h2] at h
      injection h with h
      subst h
      intro hnil
      rw [hnil] at h2
      exact h2 rfl
  · rw [if_neg h1] at h
    exact absurd h (by simp)

/-- A successfully extracted question text is non-empty. -/
theorem extractQuestionText_ne_nil {block qt : List Char}
    (h : extractQuestionText block = some qt) : qt ≠ [] := by
  unfold extractQuestionText at h
  dsimp only at h
  exact guard_some_ne_nil h

/-- Structure of a successful block parse: non-empty question text, the
first four trimmed option matches (of at least four), and the extracted
answer. -/
theorem parseQuestionBlock_eq_some {block : List Char} {n : ℕ}
    {q : ParsedQuestion} (h : parseQuestionBlock block n = some q) :
    q.question ≠ [] ∧
    q.options = ((scanOptions block).take 4).map trimChars ∧
    4 ≤ (scanOptions block).length ∧
    q.answer = extractAnswer block := by
  unfold parseQuestionBlock at h
  rcases he : extractQuestionText block with _ | qt
  · rw [he] at h
    exact absurd h (by simp)
  · rw [he] at h
    dsimp only at h
    by_cases h4 : 4 ≤ (scanOptions block).length
    · rw [if_pos h4] at h
      injection h with h
      subst h
      exact ⟨extractQuestionText_ne_nil he, rfl, h4, rfl⟩
    · rw [if_neg h4] at h
      exact absurd h (by simp)

/-- Everything the parser returns comes from a successful block parse. -/
theorem mem_parseQuestionsFromText {text : List Char} {expectedCount : ℕ}
    {q : ParsedQuestion} (h : q ∈ parseQuestionsFromText text expectedCount) :
    ∃ block n, parseQuestionBlock block n = some q := by
  unfold parseQuestionsFromText at h
  obtain ⟨p, _, hp⟩ := List.mem_filterMap.mp h
  exact ⟨trimChars p.2, p.1 + 1, hp⟩

/-! ## Claim theorems: parser -/

/-- C2 counterexample: `sampleBrokenFirstText` contains five well-formed
blocks (parsing with a high expected count yields all five) plus a first
block missing its fourth option, yet with expectedCount 3 the parser
returns only 2 items — the dropped block's slot is not refilled from
the remaining well-formed blocks. -/
theorem parser_drops_slot_of_malformed_block :
    (parseQuestionsFromText sampleBrokenFirstText 6).length = 5 ∧
    (parseQuestionsFromText sampleBrokenFirstText 3).length = 2 := by
  constructor <;> decide

/-- C2 (amended): with expectedCount 3 a text whose first three blocks
are well-formed yields exactly 3 items; the parser never returns more
than expectedCount items because it only examines the first
expectedCount blocks (so a malformed block among them shrinks the
yield); and a unit is accepted only with non-empty prompt text and
exactly four extracted options. -/
theorem parser_bounded_acceptance :
    (parseQuestionsFromText sampleFiveText 3).length = 3 ∧
    (∀ (text : List Char) (expectedCount : ℕ),
      (parseQuestionsFromText text expectedCount).length ≤ expectedCount) ∧
    (∀ (text : List Char) (expectedCount : ℕ) (q : ParsedQuestion),
      q ∈ parseQuestionsFromText text expectedCount →
      q.question ≠ [] ∧ q.options.length = 4) := by
  refine ⟨by decide, ?_, ?_⟩
  · intro text expectedCount
    unfold parseQuestionsFromText
    calc (((((splitQMarkers text).filter
            (fun b => !(trimChars b).isEmpty)).take expectedCount).enum).filterMap
          (fun p => parseQuestionBlock (trimChars p.2) (p.1 + 1))).length
        ≤ ((((splitQMarkers text).filter
            (fun b => !(trimChars b).isEmpty)).take expectedCount).enum).length :=
          List.length_filterMap_le _ _
      _ = (((splitQMarkers text).filter
            (fun b => !(trimChars b).isEmpty)).take expectedCount).length :=
          List.enum_length
      _ ≤ expectedCount := List.length_take_le _ _
  · intro text expectedCount q hq
    obtain ⟨block, n, hb⟩ := mem_parseQuestionsFromText hq
    obtain ⟨hne, hopt, h4, _⟩ := parseQuestionBlock_eq_some hb
    refine ⟨hne, ?_⟩
    rw [hopt, List.length_map, List.length_take]
    omega

/-- Witness for `parser_bounded_acceptance`: the first parsed question
of the five-question sample is accepted with a prompt and four
options. -/
theorem parser_bounded_acceptance_check :
    sampleQ1.question ≠ [] ∧ sampleQ1.options.length = 4 :=
  parser_bounded_acceptance.2.2 sampleFiveText 1 sampleQ1 (by decide)

/-- C10 (confirmed): every parsed question's answer is a single bare
letter among `A`-`D`, while each of its options keeps its letter-and-`)`
marker prefix, so the stored `correctAnswer` (the transformed `answer`)
is never string-equal to any option, and the submit-route evaluation
marks a response correct exactly when the user submits the bare
letter. -/
theorem parser_answer_bare_letter (text : List Char) (expectedCount : ℕ)
    (q : ParsedQuestion) (hq : q ∈ parseQuestionsFromText text expectedCount) :
    (q.answer = ['A'] ∨ q.answer = ['B'] ∨ q.answer = ['C'] ∨
      q.answer = ['D']) ∧
    (∀ opt ∈ q.options, ∃ c t, opt = c :: ')' :: t ∧
      isOptionLetter c = true) ∧
    (∀ opt ∈ q.options, opt ≠ q.answer) ∧
    (∀ (difficulty : String) (index : ℕ) (userResponse : List Char),
      (transformQuestion difficulty index q).correctAnswer = q.answer ∧
      ((evalResponse [transformQuestion difficulty index q]
          (transformQuestion difficulty index q).questionId
          userResponse).isCorrect = true ↔ userResponse = q.answer)) := by
  obtain ⟨block, n, hb⟩ := mem_parseQuestionsFromText hq
  obtain ⟨hne, hopt, h4, hans⟩ := parseQuestionBlock_eq_some hb
  have hshape : ∀ opt ∈ q.options, ∃ c t, opt = c :: ')' :: t ∧
      isOptionLetter c = true := by
    intro opt hmem
    rw [hopt] at hmem
    obtain ⟨m, hm, rfl⟩ := List.mem_map.mp hmem
    have hms := scanOptionsAux_shape _ _ m (List.mem_of_mem_take hm)
    obtain ⟨c, t, rfl, hc⟩ := hms
    obtain ⟨t2, ht2⟩ := trimChars_keeps_marker t (isOptionLetter_not_space hc)
    exact ⟨c, t2, ht2, hc⟩
  have hletter : q.answer = ['A'] ∨ q.answer = ['B'] ∨ q.answer = ['C'] ∨
      q.answer = ['D'] := by
    rw [hans]
    exact extractAnswer_shape block
  refine ⟨hletter, hshape, ?_, ?_⟩
  · intro opt hmem heq
    obtain ⟨c, t, rfl, _⟩ := hshape opt hmem
    rcases hletter with h|h|h|h <;> rw [h] at heq <;> simp at heq
  · intro difficulty index userResponse
    refine ⟨rfl, ?_⟩
    simp only [evalResponse, List.find?_cons, beq_self_eq_true,
      transformQuestion]
    rw [beq_iff_eq]
    exact eq_comm

/-- Witness for `parser_answer_bare_letter`: the first parsed question
of the sample has the bare answer letter `B`. -/
theorem parser_answer_bare_letter_check :
    sampleQ1.answer = ['A'] ∨ sampleQ1.answer = ['B'] ∨
    sampleQ1.answer = ['C'] ∨ sampleQ1.answer = ['D'] :=
  (parser_answer_bare_letter sampleFiveText 1 sampleQ1 (by decide)).1

end QuizBackend
